import Mathlib

/-!
Shallow embedding of the Automated File Organizer (`src/organizer.py`).

The embedding models:
- Python string helpers used by the source (`lower`, `strip`, `capitalize`,
  `Path.suffix`) as pure functions on Lean strings (ASCII semantics, which is
  what the configuration and file names in this program use);
- a Python `dict` as a function `String → Option String`, with assignment as
  pointwise override (later assignments win) and `dict.get` with a default;
- the filesystem visible to one run as an `FS` record: the list of file paths
  and the list of directory paths relative to the target directory;
- environmental outcomes the OS decides (whether `mkdir` raises, whether
  `shutil.move` succeeds, raises `PermissionError`, or raises another
  exception) as per-item oracle fields on the scanned `Item`.

`organize_directory` is a fold of the per-item step `processItem` over the
scan list, threading the statistics record and the filesystem state, exactly
mirroring the loop at `organizer.py:139-173`.
-/

namespace FileOrganizer

/-- Model of Python `str.lower()` (ASCII): lowercase every character. -/
def pyLower (s : String) : String :=
  String.mk (s.data.map Char.toLower)

/-- Model of Python `str.strip()`: drop leading and trailing whitespace. -/
def pyStrip (s : String) : String :=
  String.mk (((s.data.dropWhile Char.isWhitespace).reverse.dropWhile
    Char.isWhitespace).reverse)

/-- Model of Python `str.capitalize()`: uppercase the first character and
lowercase the remainder. -/
def pyCapitalize (s : String) : String :=
  match s.data with
  | [] => ""
  | c :: cs => String.mk (Char.toUpper c :: cs.map Char.toLower)

/-- Model of Python `name.startswith('.')`: the first character is a dot. -/
def pyStartsWithDot (name : String) : Bool :=
  match name.data with
  | [] => false
  | c :: _ => c = '.'

/-- Index of the last occurrence of a dot in a character list, if any. -/
def lastDot : List Char → Option Nat
  | [] => none
  | c :: cs =>
    match lastDot cs with
    | some i => some (i + 1)
    | none => if c = '.' then some 0 else none

/-- Model of Python `pathlib.PurePath.suffix`: the substring from the last
dot of the name, provided that dot is neither the first nor the last
character; the empty string otherwise. -/
def pySuffix (name : String) : String :=
  match lastDot name.data with
  | some i =>
    if 0 < i ∧ i < name.data.length - 1 then String.mk (name.data.drop i)
    else ""
  | none => ""

/-- Model of a Python `dict` with string keys and values: the partial map it
represents. -/
abbrev PyDict := String → Option String

/-- Model of Python dict assignment `d[k] = v`: pointwise override, so a
later assignment to the same key wins. -/
def dictSet (d : PyDict) (k v : String) : PyDict :=
  fun q => if q = k then some v else d q

/-- Model of Python `d.get(k, dflt)`. -/
def dictGet (d : PyDict) (k dflt : String) : String :=
  (d k).getD dflt

/-- Model of the empty Python dict literal. -/
def emptyDict : PyDict := fun _ => none

/-- Hardcoded default configuration of `load_config` (`organizer.py:23-30`). -/
def default_config : List (String × List String) :=
  [("Documents", [".pdf", ".doc", ".docx", ".txt", ".csv", ".xls", ".xlsx"]),
   ("Images", [".jpg", ".jpeg", ".png", ".gif", ".svg"]),
   ("Videos", [".mp4", ".mov", ".mkv"]),
   ("Audio", [".mp3", ".wav"]),
   ("Archives", [".zip", ".rar", ".7z"]),
   ("Applications", [".exe", ".dmg", ".pkg"])]

/-- Embedding of `get_category_map` (`organizer.py:45-64`), taking the
already-loaded configuration (category name paired with its extension list,
in iteration order) instead of a config-file path: for each pair, clean the
folder name with `strip().capitalize()` and assign every
`ext.lower().strip()` to it in the flat extension-to-folder dict. -/
def get_category_map (cfg : List (String × List String)) : PyDict :=
  cfg.foldl
    (fun acc p =>
      let clean_folder_name := pyCapitalize (pyStrip p.1)
      p.2.foldl
        (fun acc2 ext => dictSet acc2 (pyStrip (pyLower ext)) clean_folder_name)
        acc)
    emptyDict

/-- Embedding of `classify_file` (`organizer.py:65-78`): look the lowercased
suffix of the file name up in the category map, defaulting to "Other". -/
def classify_file (name : String) (category_map : PyDict) : String :=
  let extension := pyLower (pySuffix name)
  dictGet category_map extension "Other"

/-- Outcome of the underlying `shutil.move` call, decided by the OS: success,
`PermissionError`, or any other exception (`organizer.py:108-118`). -/
inductive MoveRes
  | success
  | permError
  | otherError
deriving DecidableEq, Repr

/-- One immediate child of the target directory as yielded by `iterdir`,
together with the environmental outcomes the OS would produce for it:
whether `mkdir` on its destination directory raises, and what `shutil.move`
does if attempted. -/
structure Item where
  name : String
  isDir : Bool
  mkdirFails : Bool
  moveRes : MoveRes
deriving DecidableEq, Repr

/-- Filesystem state relative to the target directory: the file paths and the
directory paths that exist. -/
structure FS where
  files : List String
  dirs : List String
deriving DecidableEq, Repr

/-- Model of `Path.exists`: the path is a file or a directory. -/
def pathExists (fs : FS) (p : String) : Bool :=
  fs.files.contains p || fs.dirs.contains p

/-- Model of `destination_dir.mkdir(exist_ok=True)` when it does not raise:
create the directory if absent, do nothing if present (`organizer.py:162`). -/
def mkdirExistOk (fs : FS) (folder : String) : FS :=
  if fs.dirs.contains folder then fs else { fs with dirs := fs.dirs.concat folder }

/-- Statistics dict of `organize_directory` (`organizer.py:136`). -/
structure Stats where
  moved : Nat
  skipped : Nat
  failed : Nat
  total_items : Nat
deriving DecidableEq, Repr

/-- Initial statistics: all four counters zero (`organizer.py:136`). -/
def initStats : Stats :=
  { moved := 0, skipped := 0, failed := 0, total_items := 0 }

/-- Embedding of `move_file_safely` (`organizer.py:79-118`): returns the
boolean the source returns, paired with the filesystem after the call.
`final_path` is `destination_dir / source_path.name`; if it exists the move
is skipped (conflict), in dry-run mode the move is only simulated, otherwise
`shutil.move` relocates the file unless the OS makes it raise. -/
def move_file_safely (fs : FS) (source_name destination_dir : String)
    (res : MoveRes) (dry_run : Bool) : Bool × FS :=
  let final_path := destination_dir ++ "/" ++ source_name
  if pathExists fs final_path then (false, fs)
  else if dry_run then (true, fs)
  else
    match res with
    | MoveRes.success =>
      (true, { fs with files := (fs.files.erase source_name).concat final_path })
    | MoveRes.permError => (false, fs)
    | MoveRes.otherError => (false, fs)

/-- Body of the `for item in target_path.iterdir()` loop of
`organize_directory` (`organizer.py:139-173`): bump `total_items`, skip
directories and hidden names, skip names without a suffix, classify the
file, create the destination directory unless simulating (a raising `mkdir`
counts the item as failed and stops its processing), then attempt the safe
move and count it as moved or skipped by the returned boolean. -/
def processItem (category_map : PyDict) (dry_run : Bool)
    (st : Stats × FS) (item : Item) : Stats × FS :=
  let stats0 := st.1
  let fs := st.2
  let stats := { stats0 with total_items := stats0.total_items + 1 }
  if item.isDir || pyStartsWithDot item.name then
    ({ stats with skipped := stats.skipped + 1 }, fs)
  else if pySuffix item.name = "" then
    ({ stats with skipped := stats.skipped + 1 }, fs)
  else
    let folder_name := classify_file item.name category_map
    if !dry_run && item.mkdirFails then
      ({ stats with failed := stats.failed + 1 }, fs)
    else
      let fs1 := if dry_run then fs else mkdirExistOk fs folder_name
      let r := move_file_safely fs1 item.name folder_name item.moveRes dry_run
      if r.1 then ({ stats with moved := stats.moved + 1 }, r.2)
      else ({ stats with skipped := stats.skipped + 1 }, r.2)

/-- Embedding of `organize_directory` (`organizer.py:119-175`): fold the
per-item step over the scan list, starting from zeroed statistics and the
initial filesystem, returning the final statistics and filesystem. -/
def organize_directory (items : List Item) (category_map : PyDict)
    (dry_run : Bool) (fs : FS) : Stats × FS :=
  items.foldl (processItem category_map dry_run) (initStats, fs)

/-- Scan list of Scenario 1 of the spec: `a.pdf`, `b.jpg`, `notes`,
`.hidden` and the subdirectory `sub`, in a benign environment (no `mkdir`
or `move` errors). -/
def scenarioItems : List Item :=
  [{ name := "a.pdf", isDir := false, mkdirFails := false, moveRes := MoveRes.success },
   { name := "b.jpg", isDir := false, mkdirFails := false, moveRes := MoveRes.success },
   { name := "notes", isDir := false, mkdirFails := false, moveRes := MoveRes.success },
   { name := ".hidden", isDir := false, mkdirFails := false, moveRes := MoveRes.success },
   { name := "sub", isDir := true, mkdirFails := false, moveRes := MoveRes.success }]

/-- Initial filesystem of Scenario 1: the four files plus the subdirectory. -/
def scenarioFS : FS :=
  { files := ["a.pdf", "b.jpg", "notes", ".hidden"], dirs := ["sub"] }

/-- One loop iteration bumps `total_items` by one and puts the item into
exactly one of the three outcome counters. -/
lemma processItem_step (m : PyDict) (d : Bool) (st : Stats × FS) (item : Item) :
    (processItem m d st item).1.total_items = st.1.total_items + 1
    ∧ (processItem m d st item).1.moved + (processItem m d st item).1.skipped
        + (processItem m d st item).1.failed
      = st.1.moved + st.1.skipped + st.1.failed + 1 := by
  unfold processItem
  repeat' (first | split | (dsimp only) | simp only [Prod.fst])
  all_goals simp
  all_goals omega

/-- Folding the loop body preserves the counter partition invariant. -/
lemma foldl_stats_invariant (m : PyDict) (d : Bool) (items : List Item) :
    ∀ st : Stats × FS,
      st.1.total_items = st.1.moved + st.1.skipped + st.1.failed →
      (items.foldl (processItem m d) st).1.total_items
      = (items.foldl (processItem m d) st).1.moved
        + (items.foldl (processItem m d) st).1.skipped
        + (items.foldl (processItem m d) st).1.failed := by
  induction items with
  | nil => intro st h; simpa using h
  | cons i is ih =>
    intro st h
    rw [List.foldl_cons]
    apply ih
    have hs := processItem_step m d st i
    omega

/-- C1: at the completion of every run of `organize_directory`, the returned
statistics satisfy `total_items = moved + skipped + failed`, and each scanned
entry is counted exactly once (the loop body bumps `total_items` by one and
the sum `moved + skipped + failed` by exactly one, so the entry goes into
exactly one outcome counter). -/
theorem C1_stats_partition (items : List Item) (m : PyDict) (d : Bool) (fs : FS) :
    ((organize_directory items m d fs).1.total_items
      = (organize_directory items m d fs).1.moved
        + (organize_directory items m d fs).1.skipped
        + (organize_directory items m d fs).1.failed)
    ∧ ∀ (st : Stats × FS) (item : Item),
        (processItem m d st item).1.total_items = st.1.total_items + 1
        ∧ (processItem m d st item).1.moved + (processItem m d st item).1.skipped
            + (processItem m d st item).1.failed
          = st.1.moved + st.1.skipped + st.1.failed + 1 := by
  constructor
  · exact foldl_stats_invariant m d items (initStats, fs) (by simp [initStats])
  · intro st item
    exact processItem_step m d st item

/-- Reading a dict right after an assignment yields the assigned value on the
assigned key and the old dict's answer elsewhere. -/
lemma dictGet_dictSet (dct : PyDict) (k v q dflt : String) :
    dictGet (dictSet dct k v) q dflt = if q = k then v else dictGet dct q dflt := by
  unfold dictGet dictSet
  split <;> simp_all

/-- Flattening one category's extension list: a key among the normalized
extensions of the list now maps to that category's clean name, every other
key keeps the accumulator's answer. -/
lemma dictGet_fold_exts (exts : List String) (acc : PyDict) (clean e d : String) :
    dictGet (exts.foldl (fun a x => dictSet a (pyStrip (pyLower x)) clean) acc) e d
    = if e ∈ exts.map (fun x => pyStrip (pyLower x)) then clean
      else dictGet acc e d := by
  induction exts generalizing acc with
  | nil => simp
  | cons x xs ih =>
    rw [List.foldl_cons, ih, dictGet_dictSet]
    by_cases hmem : e ∈ xs.map (fun x => pyStrip (pyLower x)) <;>
      by_cases hx : e = pyStrip (pyLower x) <;> simp [hmem, hx]

/-- C5: `classify_file` is total (it is a Lean function with no `Option` or
error result): it returns what the extension index maps the lowercased
suffix to, files whose lowercased suffixes agree classify identically (so
".PDF" and ".pdf" yield the same category), and it returns the literal
"Other" whenever the index has no entry for the suffix. -/
theorem C5_classifier_total (m : PyDict) (n1 n2 : String) :
    classify_file n1 m = dictGet m (pyLower (pySuffix n1)) "Other"
    ∧ (pyLower (pySuffix n1) = pyLower (pySuffix n2) →
        classify_file n1 m = classify_file n2 m)
    ∧ (m (pyLower (pySuffix n1)) = none → classify_file n1 m = "Other") := by
  refine ⟨rfl, ?_, ?_⟩
  · intro h
    unfold classify_file
    rw [h]
  · intro h
    show (m (pyLower (pySuffix n1))).getD "Other" = "Other"
    rw [h]
    rfl

/-- C5 witness: ".PDF" and ".pdf" classify identically under the default
index, and an unmapped extension falls back to "Other". -/
theorem C5_classifier_total_witness :
    classify_file "a.PDF" (get_category_map default_config)
      = classify_file "b.pdf" (get_category_map default_config)
    ∧ classify_file "x.unknown" (get_category_map default_config) = "Other" :=
  ⟨(C5_classifier_total (get_category_map default_config) "a.PDF" "b.pdf").2.1
      (by decide),
   (C5_classifier_total (get_category_map default_config) "x.unknown" "x.unknown").2.2
      (by decide)⟩

/-- C6 counterexample: the claim says the remainder of a category name is
left unchanged, so "myDocs" would normalize to "MyDocs"; the code uses
Python `str.capitalize()`, which lowercases the remainder, so the built
index maps the extension to "Mydocs", not "MyDocs". -/
theorem C6_remainder_lowercased_cex :
    dictGet (get_category_map [("myDocs", [".x"])]) ".x" "Other" = "Mydocs"
    ∧ dictGet (get_category_map [("myDocs", [".x"])]) ".x" "Other" ≠ "MyDocs" := by
  constructor <;> decide

/-- C6 amended: `get_category_map` normalizes every category name by
trimming whitespace, uppercasing the first character and lowercasing the
remainder (Python `strip().capitalize()` semantics): each normalized
extension of the pair maps to exactly `pyCapitalize (pyStrip cat)`. -/
theorem C6_category_normalization (cat : String) (exts : List String) (e d : String)
    (h : e ∈ exts.map (fun x => pyStrip (pyLower x))) :
    dictGet (get_category_map [(cat, exts)]) e d = pyCapitalize (pyStrip cat) := by
  unfold get_category_map
  rw [List.foldl_cons, List.foldl_nil]
  rw [dictGet_fold_exts]
  simp [h]

/-- C6 witness: the category " tools " normalizes to "Tools" and "myDocs"
to "Mydocs" in the built index. -/
theorem C6_category_normalization_witness :
    dictGet (get_category_map [(" tools ", [".XYZ "])]) ".xyz" "Other"
      = pyCapitalize (pyStrip " tools ")
    ∧ dictGet (get_category_map [("myDocs", [".x"])]) ".x" "Other"
      = pyCapitalize (pyStrip "myDocs") :=
  ⟨C6_category_normalization " tools " [".XYZ "] ".xyz" "Other" (by decide),
   C6_category_normalization "myDocs" [".x"] ".x" "Other" (by decide)⟩

/-- C8: `get_category_map` is deterministic (equal configurations in the
same iteration order give the same index), and when the same normalized
extension appears under two categories, the later-declared category wins:
appending a pair containing the extension makes the index map it to that
pair's cleaned category name, whatever came before. -/
theorem C8_deterministic_last_wins (cfg : List (String × List String))
    (cat : String) (exts : List String) (e d : String) :
    (∀ cfg2, cfg = cfg2 → get_category_map cfg = get_category_map cfg2)
    ∧ (e ∈ exts.map (fun x => pyStrip (pyLower x)) →
        dictGet (get_category_map (cfg ++ [(cat, exts)])) e d
        = pyCapitalize (pyStrip cat)) := by
  constructor
  · intro cfg2 h
    rw [h]
  · intro h
    unfold get_category_map
    rw [List.foldl_append, List.foldl_cons, List.foldl_nil]
    rw [dictGet_fold_exts]
    simp [h]

/-- C8 witness: ".pdf" appears under "Misc" and later under "documents";
the index resolves it to the later category, cleaned to "Documents". -/
theorem C8_deterministic_last_wins_witness :
    dictGet (get_category_map ([("Misc", [".pdf"])] ++ [("documents", [".PDF "])]))
      ".pdf" "Other" = pyCapitalize (pyStrip "documents") :=
  (C8_deterministic_last_wins [("Misc", [".pdf"])] "documents" [".PDF "]
    ".pdf" "Other").2 (by decide)

/-- Idempotent directory creation never touches the file list. -/
lemma mkdirExistOk_files (fs : FS) (f : String) :
    (mkdirExistOk fs f).files = fs.files := by
  unfold mkdirExistOk
  split <;> rfl

/-- After idempotent directory creation, the directory is present. -/
lemma mkdirExistOk_contains_self (fs : FS) (f : String) :
    (mkdirExistOk fs f).dirs.contains f = true := by
  unfold mkdirExistOk
  split
  · assumption
  · simp [List.concat_eq_append]

/-- Membership form of `mkdirExistOk_contains_self`. -/
lemma mkdirExistOk_mem_self (fs : FS) (f : String) :
    f ∈ (mkdirExistOk fs f).dirs := by
  simpa using mkdirExistOk_contains_self fs f

/-- The safe move never changes the set of directories. -/
lemma move_file_safely_dirs (fs : FS) (n f : String) (res : MoveRes) (d : Bool) :
    (move_file_safely fs n f res d).2.dirs = fs.dirs := by
  unfold move_file_safely
  dsimp only
  repeat' split
  all_goals rfl

/-- A conflicting destination makes the safe move return `false` with the
filesystem untouched, in both real and simulated runs. -/
lemma move_file_safely_conflict (fs : FS) (n f : String) (res : MoveRes) (d : Bool)
    (hc : fs.files.contains (f ++ "/" ++ n) = true) :
    move_file_safely fs n f res d = (false, fs) := by
  have hp : pathExists fs (f ++ "/" ++ n) = true := by
    unfold pathExists
    rw [hc]
    rfl
  unfold move_file_safely
  simp [hp]

/-- In a real run with no conflict, a raising `shutil.move` makes the safe
move return `false` with the filesystem untouched. -/
lemma move_file_safely_raises (fs : FS) (n f : String) (res : MoveRes)
    (hc : pathExists fs (f ++ "/" ++ n) = false) (hr : res ≠ MoveRes.success) :
    move_file_safely fs n f res false = (false, fs) := by
  unfold move_file_safely
  simp only [hc]
  cases res with
  | success => exact absurd rfl hr
  | permError => simp
  | otherError => simp

/-- C2: for an eligible entry in a non-simulated run, a raising `mkdir`
counts the item as failed (moved and skipped untouched) and leaves the
filesystem alone, so no move is attempted; a raising `shutil.move` (with
`mkdir` fine and no conflict) counts the item as skipped, never failed or
moved; and the run of a scan list is the per-item step followed by the scan
of the remaining entries. -/
theorem C2_error_dispositions (m : PyDict) (st : Stats × FS) (item : Item)
    (h1 : (item.isDir || pyStartsWithDot item.name) = false)
    (h2 : pySuffix item.name ≠ "") :
    (item.mkdirFails = true →
      (processItem m false st item).1.failed = st.1.failed + 1
      ∧ (processItem m false st item).1.moved = st.1.moved
      ∧ (processItem m false st item).1.skipped = st.1.skipped
      ∧ (processItem m false st item).2 = st.2)
    ∧ (item.mkdirFails = false →
        item.moveRes ≠ MoveRes.success →
        pathExists (mkdirExistOk st.2 (classify_file item.name m))
          (classify_file item.name m ++ "/" ++ item.name) = false →
        (processItem m false st item).1.skipped = st.1.skipped + 1
        ∧ (processItem m false st item).1.failed = st.1.failed
        ∧ (processItem m false st item).1.moved = st.1.moved)
    ∧ (∀ (rest : List Item) (fs0 : FS),
        organize_directory (item :: rest) m false fs0
        = rest.foldl (processItem m false) (processItem m false (initStats, fs0) item)) := by
  refine ⟨?_, ?_, ?_⟩
  · intro h3
    simp [processItem, h1, h2, h3]
  · intro h3 h4 h5
    have hmv := move_file_safely_raises
      (mkdirExistOk st.2 (classify_file item.name m)) item.name
      (classify_file item.name m) item.moveRes h5 h4
    simp [processItem, h1, h2, h3, hmv]
  · intro rest fs0
    rfl

/-- C2 witness: with `a.pdf` present, a raising `mkdir` yields `failed = 1`,
and a `PermissionError` from the move yields `skipped = 1`. -/
theorem C2_error_dispositions_witness :
    (processItem (get_category_map default_config) false
        (initStats, FS.mk ["a.pdf"] [])
        { name := "a.pdf", isDir := false, mkdirFails := true,
          moveRes := MoveRes.success }).1.failed = 0 + 1
    ∧ (processItem (get_category_map default_config) false
        (initStats, FS.mk ["a.pdf"] [])
        { name := "a.pdf", isDir := false, mkdirFails := false,
          moveRes := MoveRes.permError }).1.skipped = 0 + 1 := by
  constructor
  · exact ((C2_error_dispositions (get_category_map default_config)
      (initStats, FS.mk ["a.pdf"] [])
      { name := "a.pdf", isDir := false, mkdirFails := true,
        moveRes := MoveRes.success } (by decide) (by decide)).1 rfl).1
  · exact (((C2_error_dispositions (get_category_map default_config)
      (initStats, FS.mk ["a.pdf"] [])
      { name := "a.pdf", isDir := false, mkdirFails := false,
        moveRes := MoveRes.permError } (by decide) (by decide)).2.1 rfl
      (by decide) (by decide)).1)

/-- C3: when the final destination path already holds a file, the safe move
returns `false` and leaves the filesystem exactly as it was (no overwrite,
source not moved), and the per-item step counts the entry as skipped with
the file list unchanged — whatever the simulation flag is. -/
theorem C3_conflict_never_overwrites (m : PyDict) (d : Bool) (st : Stats × FS)
    (item : Item)
    (h1 : (item.isDir || pyStartsWithDot item.name) = false)
    (h2 : pySuffix item.name ≠ "")
    (h3 : item.mkdirFails = false)
    (h4 : st.2.files.contains (classify_file item.name m ++ "/" ++ item.name) = true) :
    (∀ (fs1 : FS) (res : MoveRes) (d1 : Bool),
        fs1.files.contains (classify_file item.name m ++ "/" ++ item.name) = true →
        move_file_safely fs1 item.name (classify_file item.name m) res d1 = (false, fs1))
    ∧ (processItem m d st item).1.skipped = st.1.skipped + 1
    ∧ (processItem m d st item).1.moved = st.1.moved
    ∧ (processItem m d st item).2.files = st.2.files := by
  refine ⟨fun fs1 res d1 hc =>
    move_file_safely_conflict fs1 item.name (classify_file item.name m) res d1 hc, ?_⟩
  cases d with
  | false =>
    have hfiles := mkdirExistOk_files st.2 (classify_file item.name m)
    have hmv := move_file_safely_conflict
      (mkdirExistOk st.2 (classify_file item.name m)) item.name
      (classify_file item.name m) item.moveRes false (by rw [hfiles]; exact h4)
    simp [processItem, h1, h2, h3, hmv, hfiles]
  | true =>
    have hmv := move_file_safely_conflict st.2 item.name
      (classify_file item.name m) item.moveRes true h4
    simp [processItem, h1, h2, hmv]

/-- C3 witness: Scenario 2 of the spec, `report.pdf` with
`Documents/report.pdf` already present: skipped becomes 1 and the file list
is untouched, in a real run. -/
theorem C3_conflict_never_overwrites_witness :
    (processItem (get_category_map default_config) false
        (initStats, FS.mk ["report.pdf", "Documents/report.pdf"] ["Documents"])
        { name := "report.pdf", isDir := false, mkdirFails := false,
          moveRes := MoveRes.success }).1.skipped = 0 + 1
    ∧ (processItem (get_category_map default_config) false
        (initStats, FS.mk ["report.pdf", "Documents/report.pdf"] ["Documents"])
        { name := "report.pdf", isDir := false, mkdirFails := false,
          moveRes := MoveRes.success }).2.files
      = ["report.pdf", "Documents/report.pdf"] := by
  have h := C3_conflict_never_overwrites (get_category_map default_config) false
    (initStats, FS.mk ["report.pdf", "Documents/report.pdf"] ["Documents"])
    { name := "report.pdf", isDir := false, mkdirFails := false,
      moveRes := MoveRes.success } (by decide) (by decide) rfl (by decide)
  exact ⟨h.2.1, h.2.2.2⟩

/-- A simulated safe move never changes the filesystem. -/
lemma move_file_safely_dry_fs (fs : FS) (n f : String) (res : MoveRes) :
    (move_file_safely fs n f res true).2 = fs := by
  unfold move_file_safely
  dsimp only
  split <;> simp

/-- A simulated loop iteration never changes the filesystem. -/
lemma processItem_dry_fs (m : PyDict) (st : Stats × FS) (item : Item) :
    (processItem m true st item).2 = st.2 := by
  unfold processItem
  dsimp only
  repeat' split
  all_goals simp_all [move_file_safely_dry_fs]

/-- C4: a run with the simulation flag set leaves the filesystem exactly as
it was — no directory is created, no file is moved — and an eligible entry
with no conflict is still counted as moved. -/
theorem C4_dry_run_pure (items : List Item) (m : PyDict) (fs : FS) :
    (organize_directory items m true fs).2 = fs
    ∧ ∀ (st : Stats × FS) (item : Item),
        (item.isDir || pyStartsWithDot item.name) = false →
        pySuffix item.name ≠ "" →
        pathExists st.2 (classify_file item.name m ++ "/" ++ item.name) = false →
        (processItem m true st item).1.moved = st.1.moved + 1
        ∧ (processItem m true st item).2 = st.2 := by
  constructor
  · unfold organize_directory
    suffices h : ∀ st : Stats × FS, st.2 = fs →
        (items.foldl (processItem m true) st).2 = fs by
      exact h (initStats, fs) rfl
    induction items with
    | nil =>
      intro st h
      simpa using h
    | cons i is ih =>
      intro st h
      rw [List.foldl_cons]
      exact ih _ (by rw [processItem_dry_fs]; exact h)
  · intro st item h1 h2 h3
    have hmv : move_file_safely st.2 item.name (classify_file item.name m)
        item.moveRes true = (true, st.2) := by
      unfold move_file_safely
      simp [h3]
    refine ⟨?_, processItem_dry_fs m st item⟩
    simp [processItem, h1, h2, hmv]

/-- C4 witness: Scenario 3 of the spec, a dry run over `x.mp3`: the
filesystem is unchanged (no `Audio` directory, file still in place) and the
simulated move is counted as moved. -/
theorem C4_dry_run_pure_witness :
    (organize_directory
        [{ name := "x.mp3", isDir := false, mkdirFails := false,
           moveRes := MoveRes.success }]
        (get_category_map default_config) true (FS.mk ["x.mp3"] [])).2
      = FS.mk ["x.mp3"] []
    ∧ (processItem (get_category_map default_config) true
        (initStats, FS.mk ["x.mp3"] [])
        { name := "x.mp3", isDir := false, mkdirFails := false,
          moveRes := MoveRes.success }).1.moved = 0 + 1 := by
  refine ⟨(C4_dry_run_pure
    [{ name := "x.mp3", isDir := false, mkdirFails := false,
       moveRes := MoveRes.success }]
    (get_category_map default_config) (FS.mk ["x.mp3"] [])).1, ?_⟩
  have h := (C4_dry_run_pure [] (get_category_map default_config)
    (FS.mk ["x.mp3"] [])).2 (initStats, FS.mk ["x.mp3"] [])
    { name := "x.mp3", isDir := false, mkdirFails := false,
      moveRes := MoveRes.success } (by decide) (by decide) (by decide)
  simpa using h.1

/-- C7: every loop iteration bumps `total_items` before any disposition
decision; an entry that is a directory, has a hidden (dot-leading) name, or
has an empty suffix is counted as skipped with the filesystem untouched (so
it is neither moved nor classified into a destination); and Scenario 1
(`a.pdf`, `b.jpg`, `notes`, `.hidden`, `sub/` under the default mapping)
yields total_items = 5, moved = 2, skipped = 3, failed = 0. -/
theorem C7_scan_rules (m : PyDict) (d : Bool) (st : Stats × FS) (item : Item) :
    (processItem m d st item).1.total_items = st.1.total_items + 1
    ∧ ((item.isDir || pyStartsWithDot item.name) = true ∨ pySuffix item.name = "" →
        (processItem m d st item).1.skipped = st.1.skipped + 1
        ∧ (processItem m d st item).1.moved = st.1.moved
        ∧ (processItem m d st item).1.failed = st.1.failed
        ∧ (processItem m d st item).2 = st.2)
    ∧ (organize_directory scenarioItems (get_category_map default_config) false
        scenarioFS).1
      = { moved := 2, skipped := 3, failed := 0, total_items := 5 } := by
  refine ⟨(processItem_step m d st item).1, ?_, by decide⟩
  intro h
  rcases h with h | h
  · simp [processItem, h]
  · by_cases hA : (item.isDir || pyStartsWithDot item.name) = true
    · simp [processItem, hA]
    · simp [processItem, hA, h]

/-- C7 witness: the subdirectory entry `sub` of Scenario 1 is skipped with
the filesystem untouched. -/
theorem C7_scan_rules_witness :
    (processItem (get_category_map default_config) false
        (initStats, scenarioFS)
        { name := "sub", isDir := true, mkdirFails := false,
          moveRes := MoveRes.success }).1.skipped = 0 + 1 := by
  have h := (C7_scan_rules (get_category_map default_config) false
    (initStats, scenarioFS)
    { name := "sub", isDir := true, mkdirFails := false,
      moveRes := MoveRes.success }).2.1 (Or.inl (by decide))
  simpa using h.1

/-- C10: in a non-simulated run, the destination category directory is
created before the conflict check and the move attempt: for every eligible
entry whose `mkdir` succeeds, the directory is present afterwards whatever
the move outcome was; concretely, a run over `x.pdf` whose move raises
`PermissionError` leaves the `Documents` directory behind while `x.pdf` was
never moved (and is tallied as skipped). -/
theorem C10_mkdir_precedes_conflict (m : PyDict) (st : Stats × FS) (item : Item)
    (h1 : (item.isDir || pyStartsWithDot item.name) = false)
    (h2 : pySuffix item.name ≠ "")
    (h3 : item.mkdirFails = false) :
    (processItem m false st item).2.dirs.contains (classify_file item.name m) = true
    ∧ organize_directory
        [{ name := "x.pdf", isDir := false, mkdirFails := false,
           moveRes := MoveRes.permError }]
        (get_category_map default_config) false (FS.mk ["x.pdf"] [])
      = ({ moved := 0, skipped := 1, failed := 0, total_items := 1 },
         FS.mk ["x.pdf"] ["Documents"]) := by
  refine ⟨?_, by decide⟩
  simp only [processItem, h1, h2, h3]
  simp only [Bool.not_false, Bool.true_and, Bool.false_or]
  repeat' split
  all_goals simp_all [move_file_safely_dirs, mkdirExistOk_mem_self]

/-- C10 witness: for `x.pdf` with a permission-denied move, the processed
state contains the `Documents` destination directory. -/
theorem C10_mkdir_precedes_conflict_witness :
    (processItem (get_category_map default_config) false
        (initStats, FS.mk ["x.pdf"] [])
        { name := "x.pdf", isDir := false, mkdirFails := false,
          moveRes := MoveRes.permError }).2.dirs.contains
      (classify_file "x.pdf" (get_category_map default_config)) = true :=
  (C10_mkdir_precedes_conflict (get_category_map default_config)
    (initStats, FS.mk ["x.pdf"] [])
    { name := "x.pdf", isDir := false, mkdirFails := false,
      moveRes := MoveRes.permError } (by decide) (by decide) rfl).1

/-- A list whose `lastDot` is `none` holds no dot. -/
lemma lastDot_none_no_dot {cs : List Char} (h : lastDot cs = none) : '.' ∉ cs := by
  induction cs with
  | nil => simp
  | cons c cs ih =>
    intro hmem
    unfold lastDot at h
    cases hcs : lastDot cs with
    | some i =>
      rw [hcs] at h
      simp at h
    | none =>
      rw [hcs] at h
      by_cases hc : c = '.'
      · simp [hc] at h
      · rcases List.mem_cons.mp hmem with h1 | h1
        · exact hc h1.symm
        · exact ih hcs h1

/-- No dot occurs strictly after the position `lastDot` reports. -/
lemma lastDot_no_dot_after {cs : List Char} {i : Nat} (h : lastDot cs = some i) :
    '.' ∉ cs.drop (i + 1) := by
  induction cs generalizing i with
  | nil => simp [lastDot] at h
  | cons c cs ih =>
    unfold lastDot at h
    cases hcs : lastDot cs with
    | some j =>
      rw [hcs] at h
      have hij : i = j + 1 := by
        injection h with h'
        omega
      rw [hij]
      simpa using ih hcs
    | none =>
      rw [hcs] at h
      by_cases hc : c = '.'
      · simp [hc] at h
        cases h
        simpa using lastDot_none_no_dot hcs
      · simp [hc] at h

/-- Lowercasing maps only the dot itself to a dot. -/
lemma char_toLower_eq_dot {c : Char} (h : c.toLower = '.') : c = '.' := by
  unfold Char.toLower at h
  dsimp only at h
  split at h
  · exfalso
    rename_i hc
    have hv : (c.toNat + 32).isValidChar := Or.inl (by omega)
    have h2 := congrArg Char.toNat h
    rw [Char.ofNat, dif_pos hv] at h2
    have h3 : Char.toNat (Char.ofNatAux (c.toNat + 32) hv) = c.toNat + 32 := rfl
    have h4 : Char.toNat '.' = 46 := rfl
    rw [h3, h4] at h2
    omega
  · exact h

/-- Mapping a lowercase over a literal character list. -/
lemma pyLower_mk (l : List Char) :
    pyLower (String.mk l) = String.mk (l.map Char.toLower) := rfl

/-- Either the suffix is empty, or it is the name from its last dot on. -/
lemma pySuffix_cases (name : String) :
    pySuffix name = ""
    ∨ ∃ i, lastDot name.data = some i
        ∧ pySuffix name = String.mk (name.data.drop i) := by
  unfold pySuffix
  cases h : lastDot name.data with
  | none => exact Or.inl rfl
  | some i =>
    dsimp only
    by_cases hcond : 0 < i ∧ i < name.data.length - 1
    · rw [if_pos hcond]
      exact Or.inr ⟨i, rfl, rfl⟩
    · rw [if_neg hcond]
      exact Or.inl rfl

/-- The lowercased suffix of any name is never the compound ".tar.gz":
the suffix starts at the last dot, so its tail holds no dot, while
".tar.gz" has a dot in its tail. -/
lemma pySuffix_ne_tar_gz (name : String) : pyLower (pySuffix name) ≠ ".tar.gz" := by
  rcases pySuffix_cases name with hs | ⟨i, hld, hs⟩
  · rw [hs]
    decide
  · intro h
    rw [hs, pyLower_mk] at h
    have hlit : (".tar.gz" : String) = String.mk ['.', 't', 'a', 'r', '.', 'g', 'z'] := rfl
    rw [hlit] at h
    have hdata : (name.data.drop i).map Char.toLower
        = ['.', 't', 'a', 'r', '.', 'g', 'z'] := by
      injection h
    have htail : (name.data.drop (i + 1)).map Char.toLower
        = ['t', 'a', 'r', '.', 'g', 'z'] := by
      have h6 : ((name.data.drop i).map Char.toLower).tail
          = ['t', 'a', 'r', '.', 'g', 'z'] := by
        rw [hdata]
        rfl
      rw [← List.map_tail, List.tail_drop] at h6
      exact h6
    have hmem : '.' ∈ (name.data.drop (i + 1)).map Char.toLower := by
      rw [htail]
      simp
    rcases List.mem_map.mp hmem with ⟨c, hc, hlc⟩
    have hcd : c = '.' := char_toLower_eq_dot hlc
    rw [hcd] at hc
    exact lastDot_no_dot_after hld hc

/-- C9: classification keys on only the final dot-delimited suffix:
`pySuffix "archive.tar.gz"` is ".gz"; `classify_file` looks up exactly the
lowercased `pySuffix` of the name; and no file name ever produces the
compound lookup key ".tar.gz", so a mapping entry under that key can never
match any file. -/
theorem C9_compound_extensions_never_match (m : PyDict) (name : String) :
    pySuffix "archive.tar.gz" = ".gz"
    ∧ classify_file name m = dictGet m (pyLower (pySuffix name)) "Other"
    ∧ pyLower (pySuffix name) ≠ ".tar.gz" :=
  ⟨by decide, rfl, pySuffix_ne_tar_gz name⟩


end FileOrganizer
